import Mathlib

/-!
Verification of the fixPrinter print-orchestration core.

The definitions below are a shallow embedding of the Go sources:
  * `src/internal/printer/printer.go` — the print orchestrator `Service`
    (validation, the waiters registry, `Print`, `NotifyResult`);
  * the `main`-package App driver (`src/unnamed/part_002`, final copy) —
    `PausePrinter`, `GetPrinterStatus`, `GetPrinterJobs`, `RemovePrintJob`,
    `removeAllPrinterJobs`, `triggerAutoPrint`, `evaluateFinePrintState`.

External effects (PowerShell subprocesses, the embedded page, timers) are
modelled as explicit parameters and event traces; Go `time.Duration` values
are integers counting nanoseconds, and Go's truncated integer division and
remainder are `Int.tdiv` / `Int.tmod`.
-/

namespace FixPrinter

/-! ## Data model (printer.go) -/

/-- Reportlet defines a single report instance to print (printer.go). -/
structure Reportlet where
  reportlet : String
  idMedpers : String
  orgNa : String
  idVismed : String
  documentNumber : String
deriving DecidableEq, Repr

/-- PrintData wraps reportlets used by FR.doURLPrint (printer.go). -/
structure PrintData where
  reportlets : List Reportlet
deriving DecidableEq, Repr

/-- PrintParams is the payload FineReport expects in FR.doURLPrint
(printer.go).  The empty string stands for Go's zero value. -/
structure PrintParams where
  printURL : String
  printType : Int
  pageType : Int
  isPopUp : Bool
  printerName : String
  data : PrintData
  entryURL : String
deriving DecidableEq, Repr

/-- PrintResult synchronises async print execution results (printer.go). -/
structure PrintResult where
  requestId : String
  success : Bool
  error : String
  durationMs : Int
deriving DecidableEq, Repr

/-- Config captures service level settings (printer.go); durations are in
nanoseconds, exactly as Go's `time.Duration` counts them. -/
structure Config where
  entryURL : String
  printURL : String
  readyTimeoutNs : Int
  readyIntervalNs : Int
  frameLoadTimeoutNs : Int
  resultTimeoutNs : Int
deriving DecidableEq, Repr

/-- Go's `Duration.Milliseconds()`: integer division by 10^6, truncating
toward zero. -/
def durationMilliseconds (ns : Int) : Int := ns.tdiv 1000000

def defaultEntryURL : String :=
  "http://172.20.38.62:8080/webroot/decision/view/report?viewlet=hi%252Fhis%252Fbil%252Ftest_printer.cpt&ref_t=design&op=view&ref_c=093def84-95a2-4eaf-af61-61dc90a4d043"

def defaultPrintURL : String :=
  "http://172.20.38.62:8080/webroot/decision/view/report"

/-- defaultWaitTimeout = 45 s, in nanoseconds. -/
def defaultWaitTimeoutNs : Int := 45 * 1000000000

/-- defaultReadyInterval = 400 ms, in nanoseconds. -/
def defaultReadyIntervalNs : Int := 400 * 1000000

/-- defaultFrameLoadTimeout = 25 s, in nanoseconds. -/
def defaultFrameLoadTimeoutNs : Int := 25 * 1000000000

/-- NewService's config normalisation (printer.go lines 99-123): every
zero-valued field is replaced by its default, and ResultTimeout defaults to
the (already normalised) ReadyTimeout plus 15 s. -/
def newService (cfg : Config) : Config :=
  let cfg := if cfg.entryURL = "" then { cfg with entryURL := defaultEntryURL } else cfg
  let cfg := if cfg.printURL = "" then { cfg with printURL := defaultPrintURL } else cfg
  let cfg := if cfg.readyTimeoutNs = 0 then { cfg with readyTimeoutNs := defaultWaitTimeoutNs } else cfg
  let cfg := if cfg.readyIntervalNs = 0 then { cfg with readyIntervalNs := defaultReadyIntervalNs } else cfg
  let cfg := if cfg.frameLoadTimeoutNs = 0 then { cfg with frameLoadTimeoutNs := defaultFrameLoadTimeoutNs } else cfg
  if cfg.resultTimeoutNs = 0 then { cfg with resultTimeoutNs := cfg.readyTimeoutNs + 15 * 1000000000 } else cfg

/-- Config zero value, as in `printer.NewService(printer.Config{})` in
NewApp. -/
def emptyConfig : Config :=
  { entryURL := "", printURL := "", readyTimeoutNs := 0, readyIntervalNs := 0,
    frameLoadTimeoutNs := 0, resultTimeoutNs := 0 }

/-! ## Waiters registry

Go's `map[string]chan PrintResult` is modelled by its key set: a channel is
only ever a one-shot delivery slot, so the observable content of the map is
which request ids are pending.  `mapInsert`/`mapErase` mirror Go map
assignment and `delete` (a key occurs effectively once). -/

/-- Key lookup in the modelled waiters map. -/
def hasKey : List String → String → Bool
  | [], _ => false
  | x :: rest, k => x == k || hasKey rest k

/-- Go map assignment `m[k] = v`: afterwards the key is present exactly
once. -/
def mapInsert (w : List String) (k : String) : List String :=
  k :: w.filter (fun x => !(x == k))

/-- Go map `delete(m, k)`: afterwards the key is absent. -/
def mapErase (w : List String) (k : String) : List String :=
  w.filter (fun x => !(x == k))

/-- Service state: the normalised config, whether `SetContext` has run
(`s.ctx != nil`), and the pending-request registry. -/
structure Service where
  cfg : Config
  ctxReady : Bool
  waiters : List String
deriving DecidableEq, Repr

/-- The service as NewApp builds it: `NewService(Config{})` with the
runtime context installed at startup and no pending requests. -/
def appService : Service :=
  { cfg := newService emptyConfig, ctxReady := true, waiters := [] }

/-- Service.track (printer.go lines 241-245). -/
def track (s : Service) (key : String) : Service :=
  { s with waiters := mapInsert s.waiters key }

/-- Service.untrack (printer.go lines 247-251). -/
def untrack (s : Service) (key : String) : Service :=
  { s with waiters := mapErase s.waiters key }

/-- PrintParams.validate (printer.go lines 253-264). -/
def validate (p : PrintParams) : Except String Unit :=
  if p.printURL = "" then .error "printUrl is required"
  else if p.printerName = "" then .error "printerName is required"
  else if p.data.reportlets.length = 0 then .error "at least one reportlet is required"
  else .ok ()

/-- Observable actions taken by Service.Print before it blocks:
registering the request id in the waiters map and invoking the page's
automation entry point via `runtime.WindowExecJS`. -/
inductive Event where
  | trackReq (id : String)
  | execJS (id : String)
deriving DecidableEq, Repr

/-- The front half of Service.Print (printer.go lines 151-169): the nil
context check, validation, then — only on success — `track` followed by
`WindowExecJS`, in that order.  `requestID` stands for the fresh
`uuid.NewString()`; `preparePayload` only serialises the parameter record
and cannot fail on this struct, so it contributes no branch.  The returned
trace lists the side effects in program order. -/
def printStart (s : Service) (params : PrintParams) (requestID : String) :
    Except String Unit × Service × List Event :=
  if !s.ctxReady then (.error "runtime context is not ready yet", s, [])
  else
    match validate params with
    | .error e => (.error e, s, [])
    | .ok _ => (.ok (), track s requestID, [.trackReq requestID, .execJS requestID])

/-- Outcome of the blocking tail of Service.Print. -/
inductive PrintOutcome where
  | done (r : PrintResult)
  | failed (r : PrintResult) (msg : String)
  | timedOut (msg : String)
deriving DecidableEq, Repr

/-- The blocking tail of Service.Print (printer.go lines 171-183): the
`select` over the result channel and `time.After(ResultTimeout)`.
`arrival = some r` means the tracked channel delivered `r` first;
`arrival = none` means the timeout fired first, in which case the entry is
untracked and a timeout error naming the configured duration (rendered by
`render`, Go's `%s` on `time.Duration`) is returned. -/
def printAwait (render : Int → String) (s : Service) (requestID : String)
    (arrival : Option PrintResult) : Service × PrintOutcome :=
  match arrival with
  | some result =>
      if result.success then (s, .done result)
      else
        let msg := if result.error = "" then "unknown printing error" else result.error
        (s, .failed { result with error := msg } msg)
  | none =>
      (untrack s requestID,
       .timedOut ("print workflow timed out after " ++ render s.cfg.resultTimeoutNs))

/-- The duration substitution NotifyResult applies before delivery
(printer.go lines 191-193): a zero DurationMS is replaced by the configured
ready interval in milliseconds. -/
def notifyDelivered (s : Service) (result : PrintResult) : PrintResult :=
  if result.durationMs = 0
  then { result with durationMs := durationMilliseconds s.cfg.readyIntervalNs }
  else result

/-- Service.NotifyResult (printer.go lines 186-205).  Returns the updated
service and the result actually handed to a waiting channel (`none` when
the notification was dropped: empty id, or id not registered).  In Go the
duration substitution runs before the map lookup; it does not touch the
request id, so looking up the original id is equivalent. -/
def notifyResult (s : Service) (result : PrintResult) : Service × Option PrintResult :=
  if result.requestId = "" then (s, none)
  else if hasKey s.waiters result.requestId then
    ({ s with waiters := mapErase s.waiters result.requestId },
     some (notifyDelivered s result))
  else (s, none)

/-! ## App driver (main package, src/unnamed/part_002)

The App methods shell out to PowerShell; each is modelled as the pure
computation the Go code performs around that call, with the external
command's behaviour an explicit parameter. -/

def defaultPrinterName : String := "A5"

/-- Drop leading whitespace characters. -/
def dropLeadingWhitespace : List Char → List Char
  | [] => []
  | c :: rest => if c.isWhitespace then dropLeadingWhitespace rest else c :: rest

/-- Go's `strings.TrimSpace`: strip whitespace from both ends. -/
def trimString (s : String) : String :=
  ⟨(dropLeadingWhitespace ((dropLeadingWhitespace s.data.reverse).reverse))⟩

/-- Go's `strings.HasPrefix(s, prefix)` for a one-character pattern: does
the string open with that character? -/
def startsWithChar (s : String) (c : Char) : Bool :=
  match s.data with
  | [] => false
  | c0 :: _ => c0 == c

/-- App.PausePrinter (part_002 lines 739-762): the local clock's zone
offset (`time.Now().Zone()`, seconds east of UTC) is converted to minutes
with Go's truncating division, and the Set-Printer window arguments are
derived from it.  `pausePrinterStart` is the `start` local after the
negative-correction `if`. -/
def pausePrinterStart (offsetSeconds : Int) : Int :=
  if (1440 - offsetSeconds.tdiv 60).tmod 1440 < 0
  then (1440 - offsetSeconds.tdiv 60).tmod 1440 + 1440
  else (1440 - offsetSeconds.tdiv 60).tmod 1440

/-- The (StartTime, UntilTime) pair App.PausePrinter passes to
Set-Printer. -/
def pausePrinterWindow (offsetSeconds : Int) : Int × Int :=
  (pausePrinterStart offsetSeconds,
   (pausePrinterStart offsetSeconds + 2).tmod 1440)

/-- App.PausePrinter: rejects a blank name, otherwise issues
`Set-Printer -Name target -StartTime start -UntilTime until`; the returned
triple is the command's (target, start, until) arguments. -/
def PausePrinter (name : String) (offsetSeconds : Int) :
    Except String (String × Int × Int) :=
  if trimString name = "" then .error "printer name is required"
  else .ok (trimString name, pausePrinterWindow offsetSeconds)

/-- The printer object PowerShell's Get-Printer reports. -/
structure PrinterObj where
  name : String
  printerStatus : Int
  startTime : Int
  untilTime : Int
deriving DecidableEq, Repr

/-- PrinterStatus (part_002 lines 783-790). -/
structure PrinterStatus where
  name : String
  printerStatus : Int
  startTime : Int
  untilTime : Int
  isPaused : Bool
deriving DecidableEq, Repr

/-- The PowerShell script App.GetPrinterStatus runs (part_002 lines
799-810): it copies the printer's fields and derives
`isPaused = (StartTime -eq 0) -and (UntilTime -eq 2)`. -/
def statusFromPrinter (p : PrinterObj) : PrinterStatus :=
  { name := p.name, printerStatus := p.printerStatus, startTime := p.startTime,
    untilTime := p.untilTime,
    isPaused := p.startTime == 0 && p.untilTime == 2 }

/-- Target-name defaulting shared by the status/jobs/remove commands: a
blank name falls back to defaultPrinterName. -/
def statusTarget (name : String) : String :=
  if trimString name = "" then defaultPrinterName else trimString name

/-- App.GetPrinterStatus (part_002 lines 793-827).  `query` models the
Get-Printer invocation plus JSON decode: `none` is a failed command or
undecodable output. -/
def GetPrinterStatus (name : String) (query : String → Option PrinterObj) :
    Except String PrinterStatus :=
  match query (statusTarget name) with
  | none => .error ("get printer status for " ++ statusTarget name ++ " failed")
  | some p => .ok (statusFromPrinter p)

/-- PrintJob (part_002 lines 623-631). -/
structure PrintJob where
  id : Int
  computerName : String
  printerName : String
  documentName : String
  submittedTime : String
  jobStatus : String
deriving DecidableEq, Repr

/-- App.GetPrinterJobs (part_002 lines 848-886), given the trimmed-to-be
combined output `raw` of a successful Get-PrintJob command.  `decodeObj`
and `decodeArr` model `json.Unmarshal` into one job or a slice.  Empty,
`[]` or `null` output is an empty queue; output opening with a brace is a
single bare job object, normalised to a one-element list. -/
def GetPrinterJobs (raw : String)
    (decodeObj : String → Option PrintJob)
    (decodeArr : String → Option (List PrintJob)) :
    Except String (List PrintJob) :=
  if trimString raw = "" ∨ trimString raw = "[]" ∨ trimString raw = "null" then .ok []
  else if startsWithChar (trimString raw) (Char.ofNat 123) then
    match decodeObj (trimString raw) with
    | some job => .ok [job]
    | none => .error "decode printer job"
  else
    match decodeArr (trimString raw) with
    | some jobs => .ok jobs
    | none => .error "decode printer jobs"

/-- The removal loop of App.removeAllPrinterJobs (part_002 lines
1063-1072): each job id is attempted in order — `removeOk` models whether
Remove-PrintJob succeeds for that id; a failure is logged and skipped —
returning the count of successful removals and the trace of attempted
ids. -/
def removeJobsLoop (removeOk : Int → Bool) : List PrintJob → Nat × List Int
  | [] => (0, [])
  | job :: rest =>
      let tail := removeJobsLoop removeOk rest
      ((if removeOk job.id then 1 else 0) + tail.1, job.id :: tail.2)

/-- App.removeAllPrinterJobs (part_002 lines 1056-1073): re-fetches the
queue (`fetch`), then runs the removal loop; only the fetch can abort. -/
def removeAllPrinterJobs (fetch : Except String (List PrintJob))
    (removeOk : Int → Bool) : Except String (Nat × List Int) :=
  match fetch with
  | .error e => .error e
  | .ok jobs => .ok (removeJobsLoop removeOk jobs)

/-! ## FinePrint watchdog (part_002 lines 939-1106)

`watchFinePrintProcess` ticks every 5 s and calls
`evaluateFinePrintState`; each tick's interaction with the outside world
(process listing, printer commands, helper launch) is a `TickEnv`, and the
driver calls the tick performs are returned as a `WEffect` trace. -/

/-- The App fields the watchdog reads and writes.  `hasCancel` models
`finePrintCancel != nil` and `ctxReady` models `a.ctx != nil`. -/
structure WatchState where
  finePrintActive : Bool
  cleanupCompleted : Bool
  allowExit : Bool
  autoPrintTriggered : Bool
  hasCancel : Bool
  ctxReady : Bool
deriving DecidableEq, Repr

/-- Environment of one App.triggerAutoPrint call (part_002 lines
1075-1106): whether `os.Getwd` succeeds, whether fix-printer.exe is found,
and whether `cmd.Start()` succeeds.  A failed `Process.Release` only logs,
so it is not modelled. -/
structure TriggerEnv where
  getwdOk : Bool
  exeFound : Bool
  startOk : Bool
deriving DecidableEq, Repr

/-- App.triggerAutoPrint: given the current `autoPrintTriggered` flag,
returns the new flag and whether a helper process was actually started.
The guard returns immediately when the flag is already set; every failure
path leaves the flag unset; only a successful start sets it. -/
def triggerAutoPrint (flag : Bool) (env : TriggerEnv) : Bool × Bool :=
  if flag then (flag, false)
  else if !env.getwdOk then (flag, false)
  else if !env.exeFound then (flag, false)
  else if !env.startOk then (flag, false)
  else (true, true)

/-- A sequence of triggerAutoPrint calls threading the flag through,
counting how many helper processes were started. -/
def runTriggerCalls (flag : Bool) : List TriggerEnv → Bool × Nat
  | [] => (flag, 0)
  | env :: rest =>
      let step := triggerAutoPrint flag env
      let tail := runTriggerCalls step.1 rest
      (tail.1, (if step.2 then 1 else 0) + tail.2)

/-- Environment of one watchdog tick: the `tasklist` outcome, whether
`ensurePrinterPaused` succeeded, the two `GetPrinterJobs` fetches (the
cleanup path re-fetches), the per-id Remove-PrintJob outcome, the
ResumePrinter outcome, and the triggerAutoPrint environment. -/
structure TickEnv where
  runningResult : Except Unit Bool
  pauseOk : Bool
  jobsResult : Except Unit (List PrintJob)
  jobsResult2 : Except Unit (List PrintJob)
  removeOk : Int → Bool
  resumeOk : Bool
  trigger : TriggerEnv

/-- Driver calls a watchdog tick can make, in program order. -/
inductive WEffect where
  | pauseEnsured
  | helperStarted
  | removeJob (id : Int)
  | resumePrinter
  | stopLoop
  | quitApp
deriving DecidableEq, Repr

/-- App.evaluateFinePrintState (part_002 lines 964-1030).  Every failing
step logs and returns early leaving the state unchanged; the empty-queue
branch marks the cycle active and fires the helper trigger once; the
non-empty branch drains the queue, resumes the printer, sets
cleanupCompleted/allowExit, cancels the polling loop and requests
application exit. -/
def evaluateFinePrintState (s : WatchState) (env : TickEnv) :
    WatchState × List WEffect :=
  if s.cleanupCompleted then (s, [])
  else
    match env.runningResult with
    | .error _ => (s, [])
    | .ok running =>
      if !running && !s.finePrintActive then (s, [])
      else if !env.pauseOk then (s, [])
      else
        match env.jobsResult with
        | .error _ => (s, [.pauseEnsured])
        | .ok jobs =>
          if jobs.length = 0 then
            if running && !s.finePrintActive then
              let t := triggerAutoPrint s.autoPrintTriggered env.trigger
              ({ s with finePrintActive := true, autoPrintTriggered := t.1 },
               [.pauseEnsured] ++ (if t.2 then [.helperStarted] else []))
            else (s, [.pauseEnsured])
          else
            match env.jobsResult2 with
            | .error _ => (s, [.pauseEnsured])
            | .ok jobs2 =>
              let removal := removeJobsLoop env.removeOk jobs2
              let removeEffects := removal.2.map WEffect.removeJob
              if !env.resumeOk then (s, [.pauseEnsured] ++ removeEffects)
              else
                ({ s with finePrintActive := false, cleanupCompleted := true,
                          allowExit := true },
                 [.pauseEnsured] ++ removeEffects ++ [.resumePrinter]
                   ++ (if s.hasCancel then [.stopLoop] else [])
                   ++ (if s.ctxReady then [.quitApp] else []))

/-! ## Sample inputs used by witnesses -/

def sampleReportlet : Reportlet :=
  { reportlet := "hi/his/bil/test_printer.cpt", idMedpers := "672315903281201152",
    orgNa := "org", idVismed := "763843129987043328", documentNumber := "20251218000001" }

def goodParams : PrintParams :=
  { printURL := "http://x/report", printType := 1, pageType := 0, isPopUp := false,
    printerName := "A5", data := { reportlets := [sampleReportlet] }, entryURL := "" }

def noPrinterParams : PrintParams := { goodParams with printerName := "" }

def notifySampleService : Service := { appService with waiters := ["req-1"] }

def notifySampleResult : PrintResult :=
  { requestId := "req-1", success := true, error := "", durationMs := 0 }

def timeoutSampleService : Service := { appService with waiters := ["req-2"] }

def lateSampleResult : PrintResult :=
  { requestId := "req-2", success := true, error := "", durationMs := 5 }

/-- Watchdog state at monitor start: all flags false, loop cancel handle
and runtime context installed. -/
def watchStart : WatchState :=
  { finePrintActive := false, cleanupCompleted := false, allowExit := false,
    autoPrintTriggered := false, hasCancel := true, ctxReady := true }

def trigAllOk : TriggerEnv := { getwdOk := true, exeFound := true, startOk := true }

def sampleJob17 : PrintJob :=
  { id := 17, computerName := "host", printerName := "A5", documentName := "doc",
    submittedTime := "2025-12-18 00:00:01", jobStatus := "Normal" }

/-- Tick environment: FinePrint.exe running, all commands succeed, queue
empty. -/
def tickEmptyQueue : TickEnv :=
  { runningResult := .ok true, pauseOk := true, jobsResult := .ok [],
    jobsResult2 := .ok [], removeOk := fun _ => true, resumeOk := true,
    trigger := trigAllOk }

/-- Tick environment: FinePrint.exe running, all commands succeed, one job
(id 17) in the queue on both fetches. -/
def tickOneJob : TickEnv :=
  { runningResult := .ok true, pauseOk := true, jobsResult := .ok [sampleJob17],
    jobsResult2 := .ok [sampleJob17], removeOk := fun _ => true, resumeOk := true,
    trigger := trigAllOk }

/-- Watchdog state after the first empty-queue tick. -/
def watchAfterTrigger : WatchState :=
  { watchStart with finePrintActive := true, autoPrintTriggered := true }

/-- Watchdog state after cleanup completes. -/
def watchDone : WatchState :=
  { watchAfterTrigger with finePrintActive := false, cleanupCompleted := true,
                           allowExit := true }

/-! ## Registry helper lemmas -/

theorem hasKey_mapErase (w : List String) (k : String) :
    hasKey (mapErase w k) k = false := by
  induction w with
  | nil => rfl
  | cons x rest ih =>
      by_cases hx : x = k
      · simpa [mapErase, hx] using ih
      · have hbeq : (x == k) = false := by
          simpa [beq_iff_eq] using hx
        simp [mapErase, hbeq, hasKey] at ih ⊢
        simpa [mapErase] using ih

theorem hasKey_mapInsert (w : List String) (k : String) :
    hasKey (mapInsert w k) k = true := by
  simp [mapInsert, hasKey]

/-! ## Claims about the orchestrator -/

/-- Claim C3: for every PrintParams with an empty printUrl, an empty
printerName, or an empty reportlet list, Print (with the runtime context
installed) returns the validation error and performs no side effect: the
waiters registry is unchanged and no page script is invoked (empty event
trace). -/
theorem print_validation_no_side_effect
    (s : Service) (p : PrintParams) (rid : String)
    (hctx : s.ctxReady = true)
    (hbad : p.printURL = "" ∨ p.printerName = "" ∨ p.data.reportlets.length = 0) :
    ∃ e, validate p = .error e ∧ printStart s p rid = (.error e, s, []) := by
  have hv : ∃ e, validate p = Except.error e := by
    rcases hbad with h | h | h
    · exact ⟨"printUrl is required", by simp [validate, h]⟩
    · by_cases hu : p.printURL = ""
      · exact ⟨"printUrl is required", by simp [validate, hu]⟩
      · exact ⟨"printerName is required", by simp [validate, hu, h]⟩
    · by_cases hu : p.printURL = ""
      · exact ⟨"printUrl is required", by simp [validate, hu]⟩
      · by_cases hn : p.printerName = ""
        · exact ⟨"printerName is required", by simp [validate, hu, hn]⟩
        · exact ⟨"at least one reportlet is required", by simp [validate, hu, hn, h]⟩
  obtain ⟨e, he⟩ := hv
  exact ⟨e, he, by simp [printStart, hctx, he]⟩

/-- Witness for C3 at a concrete input: empty printer name. -/
theorem print_validation_no_side_effect_witness :
    ∃ e, validate noPrinterParams = .error e ∧
      printStart appService noPrinterParams "req-0" = (.error e, appService, []) :=
  print_validation_no_side_effect appService noPrinterParams "req-0" rfl
    (Or.inr (Or.inl rfl))

/-- Claim C5: for every print call that passes validation (non-nil context,
valid params), Print registers the fresh request id in the waiters registry
strictly before invoking the embedded page's automation entry point: the
effect trace is exactly [track, WindowExecJS], the id is registered in the
resulting state, and the track event's index precedes the exec event's. -/
theorem print_tracks_before_exec
    (s : Service) (p : PrintParams) (rid : String)
    (hctx : s.ctxReady = true) (hv : validate p = .ok ()) :
    printStart s p rid = (.ok (), track s rid, [.trackReq rid, .execJS rid]) ∧
    hasKey (track s rid).waiters rid = true ∧
    ∃ i j, i < j ∧
      [Event.trackReq rid, Event.execJS rid].get? i = some (.trackReq rid) ∧
      [Event.trackReq rid, Event.execJS rid].get? j = some (.execJS rid) := by
  refine ⟨by simp [printStart, hctx, hv], ?_, 0, 1, by omega, rfl, rfl⟩
  simpa [track] using hasKey_mapInsert s.waiters rid

/-- Witness for C5 at a concrete valid input. -/
theorem print_tracks_before_exec_witness :
    printStart appService goodParams "req-0" =
      (.ok (), track appService "req-0",
       [.trackReq "req-0", .execJS "req-0"]) ∧
    hasKey (track appService "req-0").waiters "req-0" = true ∧
    ∃ i j, i < j ∧
      [Event.trackReq "req-0", Event.execJS "req-0"].get? i = some (.trackReq "req-0") ∧
      [Event.trackReq "req-0", Event.execJS "req-0"].get? j = some (.execJS "req-0") :=
  print_tracks_before_exec appService goodParams "req-0" rfl rfl

/-- Claim C2: when no notification arrives within the configured result
timeout, Print returns a timeout error naming the configured duration,
removes the pending entry from the waiters registry, and a later Notify
carrying that same request id is silently dropped: the registry is left
unchanged and nothing is delivered. -/
theorem print_timeout_untracks_and_drops_late_notify
    (render : Int → String) (s : Service) (rid : String) (late : PrintResult)
    (hid : late.requestId = rid) :
    printAwait render s rid none =
      (untrack s rid,
       .timedOut ("print workflow timed out after " ++ render s.cfg.resultTimeoutNs)) ∧
    hasKey (untrack s rid).waiters rid = false ∧
    notifyResult (untrack s rid) late = (untrack s rid, none) := by
  refine ⟨rfl, ?_, ?_⟩
  · simpa [untrack] using hasKey_mapErase s.waiters rid
  · by_cases hempty : late.requestId = ""
    · simp [notifyResult, hempty]
    · have hk : hasKey (untrack s rid).waiters late.requestId = false := by
        rw [hid]
        simpa [untrack] using hasKey_mapErase s.waiters rid
      simp [notifyResult, hempty, hk]

/-- Witness for C2 at a concrete input: one pending request, timeout fires,
then the late notification for the same id is a no-op. -/
theorem print_timeout_witness :
    printAwait (fun _ => "1m0s") timeoutSampleService "req-2" none =
      (untrack timeoutSampleService "req-2",
       .timedOut ("print workflow timed out after " ++ "1m0s")) ∧
    hasKey (untrack timeoutSampleService "req-2").waiters "req-2" = false ∧
    notifyResult (untrack timeoutSampleService "req-2") lateSampleResult =
      (untrack timeoutSampleService "req-2", none) :=
  print_timeout_untracks_and_drops_late_notify (fun _ => "1m0s")
    timeoutSampleService "req-2" lateSampleResult rfl

/-- Claim C10: every result NotifyResult actually delivers to a waiting
Print call carries durationMs equal to the incoming value when that was
nonzero, and the configured ready-poll interval in milliseconds when the
incoming value was zero; hence whenever that interval is nonzero — in
particular for the service NewApp builds, where it is 400 ms — the caller
can never observe a delivered durationMs of exactly 0. -/
theorem notify_zero_duration_replaced
    (s : Service) (r out : PrintResult)
    (h : (notifyResult s r).2 = some out) :
    out.durationMs =
      (if r.durationMs = 0 then durationMilliseconds s.cfg.readyIntervalNs
       else r.durationMs) ∧
    (durationMilliseconds s.cfg.readyIntervalNs ≠ 0 → out.durationMs ≠ 0) ∧
    durationMilliseconds (newService emptyConfig).readyIntervalNs = 400 := by
  have hout : out = notifyDelivered s r := by
    by_cases hempty : r.requestId = ""
    · simp [notifyResult, hempty] at h
    · by_cases hk : hasKey s.waiters r.requestId
      · simp [notifyResult, hempty, hk] at h
        exact h.symm
      · simp [notifyResult, hempty, hk] at h
  subst hout
  refine ⟨?_, ?_, rfl⟩
  · by_cases hz : r.durationMs = 0 <;> simp [notifyDelivered, hz]
  · intro hms
    by_cases hz : r.durationMs = 0 <;> simp [notifyDelivered, hz, hms]

/-- Witness for C10 at a concrete input: a zero-duration notification for a
tracked id on the NewApp service is delivered with durationMs = 400. -/
theorem notify_zero_duration_replaced_witness :
    (notifyDelivered notifySampleService notifySampleResult).durationMs =
      (if notifySampleResult.durationMs = 0
       then durationMilliseconds notifySampleService.cfg.readyIntervalNs
       else notifySampleResult.durationMs) ∧
    (durationMilliseconds notifySampleService.cfg.readyIntervalNs ≠ 0 →
      (notifyDelivered notifySampleService notifySampleResult).durationMs ≠ 0) ∧
    durationMilliseconds (newService emptyConfig).readyIntervalNs = 400 :=
  notify_zero_duration_replaced notifySampleService notifySampleResult
    (notifyDelivered notifySampleService notifySampleResult) rfl

/-! ## Claims about the queue driver -/

/-- Claim C1 counterexample: at a host zone offset of +8 h (28800 s, the
deployment timezone), PausePrinter issues Set-Printer with the window
(960, 962), not the sentinel (0, 2) the claim asserts for every non-empty
printer name. -/
theorem pause_printer_sentinel_counterexample :
    PausePrinter "A5" 28800 = .ok ("A5", 960, 962) ∧
    ¬ (((960 : Int), (962 : Int)) = ((0 : Int), (2 : Int))) := by
  constructor
  · rfl
  · decide

/-- Claim C1 (amended): for every non-empty printer name, PausePrinter
issues a command whose window is the zone-shifted pair
start = (1440 − offset/60) mod 1440 and until = start + 2 (mod 1440); for
real-world zone offsets (−720 to +840 minutes) this pair equals the
sentinel (0, 2) exactly when the offset rounds to zero minutes (UTC). -/
theorem pause_printer_shifted_window
    (name : String) (offsetSeconds : Int)
    (hname : ¬ trimString name = "")
    (hlo : -720 ≤ offsetSeconds.tdiv 60) (hhi : offsetSeconds.tdiv 60 ≤ 840) :
    PausePrinter name offsetSeconds = .ok (trimString name, pausePrinterWindow offsetSeconds) ∧
    pausePrinterStart offsetSeconds = (1440 - offsetSeconds.tdiv 60) % 1440 ∧
    (pausePrinterWindow offsetSeconds = (0, 2) ↔ offsetSeconds.tdiv 60 = 0) := by
  have ha : (0 : Int) ≤ 1440 - offsetSeconds.tdiv 60 := by omega
  have ht : (1440 - offsetSeconds.tdiv 60).tmod 1440 =
      (1440 - offsetSeconds.tdiv 60) % 1440 :=
    Int.tmod_eq_emod ha (by norm_num)
  have hnn : 0 ≤ (1440 - offsetSeconds.tdiv 60) % 1440 :=
    Int.emod_nonneg _ (by norm_num)
  have hstart : pausePrinterStart offsetSeconds =
      (1440 - offsetSeconds.tdiv 60) % 1440 := by
    unfold pausePrinterStart
    rw [ht, if_neg (by omega)]
  refine ⟨by simp [PausePrinter, hname], hstart, ?_⟩
  unfold pausePrinterWindow
  rw [hstart]
  have h2 : (0 : Int) ≤ (1440 - offsetSeconds.tdiv 60) % 1440 + 2 := by omega
  rw [Int.tmod_eq_emod h2 (by norm_num), Prod.mk.injEq]
  omega

/-- Witness for the amended C1 at the deployment offset +8 h. -/
theorem pause_printer_shifted_window_witness :
    PausePrinter "A5" 28800 = .ok ("A5", pausePrinterWindow 28800) ∧
    pausePrinterStart 28800 = (1440 - (28800 : Int).tdiv 60) % 1440 ∧
    (pausePrinterWindow 28800 = (0, 2) ↔ (28800 : Int).tdiv 60 = 0) :=
  pause_printer_shifted_window "A5" 28800 (by decide) (by decide) (by decide)

/-- Claim C4: every PrinterStatus produced by GetPrinterStatus has
isPaused = true exactly when its returned window pair is startTime = 0 and
untilTime = 2; in particular the pairs 0/0 and 480/1040 yield
isPaused = false. -/
theorem printer_status_paused_iff
    (name : String) (query : String → Option PrinterObj) (st : PrinterStatus)
    (h : GetPrinterStatus name query = .ok st) :
    (st.isPaused = true ↔ (st.startTime = 0 ∧ st.untilTime = 2)) ∧
    (statusFromPrinter
      { name := "A5", printerStatus := 0, startTime := 0, untilTime := 0 }).isPaused
        = false ∧
    (statusFromPrinter
      { name := "A5", printerStatus := 0, startTime := 480, untilTime := 1040 }).isPaused
        = false := by
  refine ⟨?_, rfl, rfl⟩
  cases hq : query (statusTarget name) with
  | none => rw [GetPrinterStatus, hq] at h; simp at h
  | some p =>
      rw [GetPrinterStatus, hq] at h
      simp at h
      subst h
      simp [statusFromPrinter]

/-- Witness for C4: a printer object with window 0/2 reports paused. -/
theorem printer_status_paused_iff_witness :
    ((statusFromPrinter
        { name := "A5", printerStatus := 0, startTime := 0, untilTime := 2 }).isPaused
          = true ↔
      ((statusFromPrinter
        { name := "A5", printerStatus := 0, startTime := 0, untilTime := 2 }).startTime = 0 ∧
       (statusFromPrinter
        { name := "A5", printerStatus := 0, startTime := 0, untilTime := 2 }).untilTime = 2)) ∧
    (statusFromPrinter
      { name := "A5", printerStatus := 0, startTime := 0, untilTime := 0 }).isPaused
        = false ∧
    (statusFromPrinter
      { name := "A5", printerStatus := 0, startTime := 480, untilTime := 1040 }).isPaused
        = false :=
  printer_status_paused_iff "A5"
    (fun _ => some { name := "A5", printerStatus := 0, startTime := 0, untilTime := 2 })
    (statusFromPrinter
      { name := "A5", printerStatus := 0, startTime := 0, untilTime := 2 })
    rfl

/-- Claim C6: for a successful command invocation, empty-queue output
(empty, "[]" or "null" after trimming) yields an empty list, never an
error, and a bare JSON object that decodes to a single job yields exactly
the one-element list holding that job. -/
theorem printer_jobs_normalization
    (raw : String) (decodeObj : String → Option PrintJob)
    (decodeArr : String → Option (List PrintJob)) (job : PrintJob) :
    ((trimString raw = "" ∨ trimString raw = "[]" ∨ trimString raw = "null") →
      GetPrinterJobs raw decodeObj decodeArr = .ok []) ∧
    (startsWithChar (trimString raw) (Char.ofNat 123) = true → decodeObj (trimString raw) = some job →
      GetPrinterJobs raw decodeObj decodeArr = .ok [job]) := by
  constructor
  · intro h
    unfold GetPrinterJobs
    rw [if_pos h]
  · intro hpre hdec
    have hne : ¬ (trimString raw = "" ∨ trimString raw = "[]" ∨ trimString raw = "null") := by
      rintro (h | h | h) <;> rw [h] at hpre <;> exact absurd hpre (by decide)
    unfold GetPrinterJobs
    rw [if_neg hne, if_pos hpre, hdec]

/-- Witness for C6: "null" output gives the empty list; a bare-object
output with a decoder returning one job gives a one-element list. -/
theorem printer_jobs_normalization_witness :
    GetPrinterJobs "null" (fun _ => none) (fun _ => none) = .ok [] ∧
    GetPrinterJobs "\x7b\"id\": 17\x7d"
      (fun _ => some { id := 17, computerName := "h", printerName := "A5",
                       documentName := "d", submittedTime := "", jobStatus := "" })
      (fun _ => none) =
      .ok [{ id := 17, computerName := "h", printerName := "A5",
             documentName := "d", submittedTime := "", jobStatus := "" }] :=
  ⟨(printer_jobs_normalization "null" (fun _ => none) (fun _ => none)
      { id := 17, computerName := "h", printerName := "A5",
        documentName := "d", submittedTime := "", jobStatus := "" }).1
      (Or.inr (Or.inr (by decide))),
   (printer_jobs_normalization "\x7b\"id\": 17\x7d"
      (fun _ => some { id := 17, computerName := "h", printerName := "A5",
                       documentName := "d", submittedTime := "", jobStatus := "" })
      (fun _ => none)
      { id := 17, computerName := "h", printerName := "A5",
        documentName := "d", submittedTime := "", jobStatus := "" }).2
      (by decide) rfl⟩

/-- Claim C9: cleanup over a fetched queue attempts removal of every job
id in order regardless of per-id failures — failed removals are skipped,
not fatal — and returns the count of successful removals (the length of
the successfully-removed sublist). -/
theorem remove_all_jobs_tolerates_failures
    (removeOk : Int → Bool) (jobs : List PrintJob) :
    removeAllPrinterJobs (.ok jobs) removeOk =
      .ok ((jobs.filter (fun j => removeOk j.id)).length,
           jobs.map (fun j => j.id)) := by
  have hloop : ∀ js : List PrintJob,
      removeJobsLoop removeOk js =
        ((js.filter (fun j => removeOk j.id)).length, js.map (fun j => j.id)) := by
    intro js
    induction js with
    | nil => rfl
    | cons j rest ih =>
        by_cases hj : removeOk j.id <;>
          simp [removeJobsLoop, ih, List.filter_cons, hj, Nat.add_comm]
  simp [removeAllPrinterJobs, hloop]

/-! ## Claims about the watchdog -/

theorem triggerAutoPrint_flag_eq (flag : Bool) (env : TriggerEnv) :
    (triggerAutoPrint flag env).1 = (flag || (triggerAutoPrint flag env).2) := by
  cases flag with
  | true => rfl
  | false =>
      by_cases h1 : env.getwdOk <;> by_cases h2 : env.exeFound <;>
        by_cases h3 : env.startOk <;> simp [triggerAutoPrint, h1, h2, h3]

theorem runTriggerCalls_le (flag : Bool) (envs : List TriggerEnv) :
    (runTriggerCalls flag envs).2 ≤ if flag then 0 else 1 := by
  induction envs generalizing flag with
  | nil => cases flag <;> simp [runTriggerCalls]
  | cons env rest ih =>
      cases flag with
      | true =>
          have hstep : triggerAutoPrint true env = (true, false) := rfl
          simpa [runTriggerCalls, hstep] using ih true
      | false =>
          by_cases hs : (triggerAutoPrint false env).2
          · have h1 : (triggerAutoPrint false env).1 = true := by
              rw [triggerAutoPrint_flag_eq]; simp [hs]
            have := ih true
            simp at this
            simp [runTriggerCalls, hs, h1, this]
          · have h1 : (triggerAutoPrint false env).1 = false := by
              rw [triggerAutoPrint_flag_eq]; simp [hs]
            have := ih false
            simp at this
            simp [runTriggerCalls, hs, h1]
            omega

/-- Claim C8: the delegated helper is started at most once.  A call with
the autoPrintTriggered flag already set returns without starting anything
and leaves the flag set; in general the flag after a call is the old flag
or-ed with "a helper was started"; and over any sequence of trigger calls
the number of helper starts is at most one (zero once the flag is set), so
repeated poll ticks never relaunch the helper. -/
theorem trigger_auto_print_at_most_once :
    (∀ env : TriggerEnv, triggerAutoPrint true env = (true, false)) ∧
    (∀ (flag : Bool) (env : TriggerEnv),
      (triggerAutoPrint flag env).1 = (flag || (triggerAutoPrint flag env).2)) ∧
    (∀ (flag : Bool) (envs : List TriggerEnv),
      (runTriggerCalls flag envs).2 ≤ if flag then 0 else 1) :=
  ⟨fun _ => rfl, triggerAutoPrint_flag_eq, runTriggerCalls_le⟩

/-- Claim C7: the watchdog full cycle.  From the initial state, a tick
that observes the target process with an empty queue pauses the printer
and starts the helper once; a further empty tick only maintains the pause;
the first tick that sees a job removes it, resumes the printer, sets
cleanupCompleted and allowExit, stops the polling loop and requests
application exit; and once cleanupCompleted is set every tick, whatever
its environment, changes nothing and performs no driver call. -/
theorem watchdog_full_cycle :
    evaluateFinePrintState watchStart tickEmptyQueue =
      (watchAfterTrigger, [.pauseEnsured, .helperStarted]) ∧
    evaluateFinePrintState watchAfterTrigger tickEmptyQueue =
      (watchAfterTrigger, [.pauseEnsured]) ∧
    evaluateFinePrintState watchAfterTrigger tickOneJob =
      (watchDone, [.pauseEnsured, .removeJob 17, .resumePrinter, .stopLoop, .quitApp]) ∧
    ∀ env : TickEnv, evaluateFinePrintState watchDone env = (watchDone, []) := by
  refine ⟨rfl, rfl, rfl, ?_⟩
  intro env
  simp [evaluateFinePrintState, watchDone, watchAfterTrigger, watchStart]

end FixPrinter
